import Mathlib

deriving instance DecidableEq for Except

/-!
Verification of the snapshot broadcast hub in `modules/http.py`.

The development shallowly embeds the module: the `WebsocketHandler` state
(the `updates` queue and the `clients` set), the per-snapshot getters, the
`add_update` invalidation entry point, the `get_updates` drain loop, the
broadcast (`producer_handler`) tick, the read-loop dispatch of
`consumer_handler`, and the Flask `trainer` endpoint.  External data
providers (the `trainer`, `pokemon`, `stats`, `context`, ... modules) are
out of scope of the hub and are modelled by an environment of opaque
serializable values; each external call may also raise, which is modelled
with `Except`.  Machine side effects that the hub ignores (logging via
`print`) are dropped.
-/

namespace PokebotHub

/-- A JSON-serializable Python value, as far as the hub inspects it:
`null`, a string, or an externally produced value that the hub only
passes through (modelled by an opaque tag). -/
inductive PyVal where
  | null
  | strVal (s : String)
  | ext (n : Nat)
deriving DecidableEq

/-- A raised Python exception, as far as the hub distinguishes them. -/
inductive PyErr where
  | attributeError
  | keyError
  | connectionClosed
  | producerError (n : Nat)
deriving DecidableEq

/-- The broadcast frame built by `prep_data`:
`json.dumps({"type": type, "data": data})`.  The JSON text is modelled
structurally by its two fields. -/
structure Message where
  type : String
  data : PyVal
deriving DecidableEq

/-- `prep_data(data, type)` from `modules/http.py` line 17. -/
def prep_data (data : PyVal) (type : String) : Message :=
  ⟨type, data⟩

/-- The external collaborators of the hub: each field is the combined
result of the external calls made by one getter of `WebsocketHandler`
(`trainer.to_dict()` with `get_game_state().name`, `get_party()` with its
`to_dict` comprehension, and so on).  A field of the form `.error e`
models that the external call raised `e`. -/
structure Env where
  trainer_full : Except PyErr PyVal
  encounter_log_data : Except PyErr PyVal
  items_data : Except PyErr PyVal
  party_data : Except PyErr PyVal
  shiny_log_data : Except PyErr PyVal
  encounter_rate_data : Except PyErr PyVal
  stats_data : Except PyErr PyVal
  event_flags_data : Except PyErr PyVal
  emulator_present : Bool
  context_dict : Except PyErr PyVal
  fps_history : Except PyErr PyVal

/-- Python `str.lower` on one character, for the ASCII range the command
tokens live in: code points 65-90 are shifted up by 32. -/
def pyLowerChar (c : Char) : Char :=
  if 65 ≤ c.toNat ∧ c.toNat ≤ 90 then Char.ofNat (c.toNat + 32) else c

/-- Python `message.lower()` from `modules/http.py` line 149. -/
def pyLower (s : String) : String :=
  ⟨s.data.map pyLowerChar⟩

/-- A push client handle.  Handles are opaque; only identity matters. -/
abbrev Client := Nat

/-- The mutable `WebsocketHandler` state: the `updates` list and the
`clients` set.  The Python set is modelled as a duplicate-free list; its
iteration order is unspecified in Python, and the model fixes insertion
order. -/
structure HState where
  updates : List (Option Message)
  clients : List Client
deriving DecidableEq

/-- `get_trainer` (line 71): `trainer.to_dict()` plus game state, wrapped
by `prep_data` with type `"trainer"`. -/
def get_trainer (env : Env) : Except PyErr Message :=
  (env.trainer_full).map (fun d => prep_data d "trainer")

/-- `get_encounter_log` (line 76). -/
def get_encounter_log (env : Env) : Except PyErr Message :=
  (env.encounter_log_data).map (fun d => prep_data d "encounter_log")

/-- `get_items` (line 79). -/
def get_items (env : Env) : Except PyErr Message :=
  (env.items_data).map (fun d => prep_data d "items")

/-- `get_party` (line 82). -/
def get_party (env : Env) : Except PyErr Message :=
  (env.party_data).map (fun d => prep_data d "party")

/-- `get_shiny_log` (line 85). -/
def get_shiny_log (env : Env) : Except PyErr Message :=
  (env.shiny_log_data).map (fun d => prep_data d "shiny_log")

/-- `get_encounter_rate` (line 88). -/
def get_encounter_rate (env : Env) : Except PyErr Message :=
  (env.encounter_rate_data).map (fun d => prep_data d "encounter_rate")

/-- `get_stats` (line 91). -/
def get_stats (env : Env) : Except PyErr Message :=
  (env.stats_data).map (fun d => prep_data d "stats")

/-- `get_event_flags` (line 94): the flag filtering happens on external
data (`request.args` and `_event_flags`), so its outcome is one
environment field; the type tag is `"flags"`. -/
def get_event_flags (env : Env) : Except PyErr Message :=
  (env.event_flags_data).map (fun d => prep_data d "flags")

/-- `get_emulator` (line 107): `data = null` when `context.emulator` is
absent, otherwise `context.to_dict()`. -/
def get_emulator (env : Env) : Except PyErr Message :=
  if env.emulator_present then
    (env.context_dict).map (fun d => prep_data d "emulator")
  else
    .ok (prep_data .null "emulator")

/-- `get_fps` (line 115): `data = null` when `context.emulator` is
absent, otherwise the reversed fps history (an external list value). -/
def get_fps (env : Env) : Except PyErr Message :=
  if env.emulator_present then
    (env.fps_history).map (fun d => prep_data d "fps")
  else
    .ok (prep_data .null "fps")

/-- `add_update` (line 29): matches the invalidated name and appends the
result of the corresponding getter to the `updates` queue; any name not
matched by a case appends `None`.  A getter that raises propagates the
exception and appends nothing. -/
def add_update (env : Env) (type : String) (q : List (Option Message)) :
    Except PyErr (List (Option Message)) :=
  match type with
  | "encounter_log" => (get_encounter_log env).map (fun m => q ++ [some m])
  | "encounter_rate" => (get_encounter_rate env).map (fun m => q ++ [some m])
  | "emulator" => (get_emulator env).map (fun m => q ++ [some m])
  | "party" => (get_party env).map (fun m => q ++ [some m])
  | "fps" => (get_fps env).map (fun m => q ++ [some m])
  | "event_flags" => (get_event_flags env).map (fun m => q ++ [some m])
  | "items" => (get_items env).map (fun m => q ++ [some m])
  | "shiny" => (get_shiny_log env).map (fun m => q ++ [some m])
  | "stats" => (get_stats env).map (fun m => q ++ [some m])
  | "trainer" => (get_trainer env).map (fun m => q ++ [some m])
  | _ => .ok (q ++ [none])

/-- The names recognized by a case of the `add_update` match. -/
def recognizedNames : List String :=
  ["encounter_log", "encounter_rate", "emulator", "party", "fps",
   "event_flags", "items", "shiny", "stats", "trainer"]

/-- The entry that one `add_update(type)` call appends (the value of the
matched getter, or `None` for the wildcard case). -/
def entryFor (env : Env) (type : String) : Except PyErr (Option Message) :=
  match type with
  | "encounter_log" => (get_encounter_log env).map some
  | "encounter_rate" => (get_encounter_rate env).map some
  | "emulator" => (get_emulator env).map some
  | "party" => (get_party env).map some
  | "fps" => (get_fps env).map some
  | "event_flags" => (get_event_flags env).map some
  | "items" => (get_items env).map some
  | "shiny" => (get_shiny_log env).map some
  | "stats" => (get_stats env).map some
  | "trainer" => (get_trainer env).map some
  | _ => .ok none

/-- The loop body of `get_updates` (line 56): `while self.updates:
updates_list.append(self.updates.pop())`.  `list.pop()` removes the last
element.  The fuel is the number of remaining iterations; the initial
queue length is enough fuel for the loop to run to completion. -/
def drainFuel {α : Type} : Nat → List α → List α → List α × List α
  | 0, q, acc => (acc, q)
  | fuel + 1, q, acc =>
    match q.getLast? with
    | none => (acc, q)
    | some x => drainFuel fuel q.dropLast (acc ++ [x])

/-- `get_updates` (line 56): returns the collected `updates_list`
together with the queue left behind (always emptied by the loop). -/
def get_updates {α : Type} (q : List α) : List α × List α :=
  drainFuel q.length q []

/-- `add_client` (line 62): Python `set.add` adds the element when
absent and otherwise leaves the set unchanged. -/
def add_client (s : List Client) (c : Client) : List Client :=
  if c ∈ s then s else s ++ [c]

/-- `remove_client` (line 65): Python `set.remove`, which raises
`KeyError` when the element is absent. -/
def remove_client (s : List Client) (c : Client) : Except PyErr (List Client) :=
  if c ∈ s then .ok (s.erase c) else .error .keyError

/-- `get_clients` (line 68). -/
def get_clients (s : List Client) : List Client :=
  s

/-- The attributes of the `WebsocketHandler` class: the two instance
attributes set by `__init__` and the methods of the class body.  Python
attribute lookup on a `WebsocketHandler` instance succeeds exactly for
these names; `prep_data` is a module-level function and is not among
them. -/
def websocketHandlerAttrs : List String :=
  ["updates", "clients", "add_update", "get_updates", "add_client",
   "remove_client", "get_clients", "get_trainer", "get_encounter_log",
   "get_items", "get_party", "get_shiny_log", "get_encounter_rate",
   "get_stats", "get_event_flags", "get_emulator", "get_fps"]

/-- The command match of `consumer_handler` (lines 151-184), applied to
the already lowercased inbound message: each recognized token or alias
evaluates its getter; the wildcard case evaluates
`websocket_handler.prep_data(...)`, an attribute lookup that raises
`AttributeError` because the class defines no such attribute (the reply
it was meant to build is produced only if the lookup were to succeed). -/
def dispatch (env : Env) (message : String) : Except PyErr Message :=
  match message with
  | "trainer" | "tr" => get_trainer env
  | "encounter_log" | "el" | "enc log" => get_encounter_log env
  | "items" | "it" | "bag" | "bg" => get_items env
  | "emulator" | "em" | "emu" => get_emulator env
  | "party" | "pa" => get_party env
  | "shiny" | "sh" | "shy" => get_shiny_log env
  | "stats" | "st" => get_stats env
  | "encounter_rate" | "er" | "enc rate" => get_encounter_rate env
  | "fps" => get_fps env
  | "flags" | "event_flags" | "ef" | "ev fl" | "fl" => get_event_flags env
  | _ =>
    if "prep_data" ∈ websocketHandlerAttrs then
      .ok (prep_data (.strVal ("unknown message: " ++ message)) "unknown")
    else
      .error .attributeError

/-- The outcome of one iteration of the `consumer_handler` read loop for
one inbound message: either a reply frame was written back and the loop
continues with the state unchanged, or an exception ended the loop and
the `finally` block ran `remove_client`. -/
inductive StepOutcome where
  | replied (m : Message) (st : HState)
  | closed (st : HState)
deriving DecidableEq

/-- One iteration of the `consumer_handler` loop (lines 146-188) for a
registered client: lowercase the inbound message, dispatch it, and send
the reply.  `sendOk` is false when `websocket.send` raises on this
connection.  Any exception from the body is swallowed by the blanket
`except` and the `finally` block removes the client (propagating a
`KeyError` if the client is absent, as `set.remove` does). -/
def consumerStep (env : Env) (st : HState) (client : Client) (sendOk : Bool)
    (raw : String) : Except PyErr StepOutcome :=
  match dispatch env (pyLower raw) with
  | .ok m =>
    if sendOk then
      .ok (.replied m st)
    else
      (remove_client st.clients client).map (fun s => .closed ⟨st.updates, s⟩)
  | .error _ =>
    (remove_client st.clients client).map (fun s => .closed ⟨st.updates, s⟩)

/-- `send` (line 190): attempt one write, catching `ConnectionClosed`.
`ok c` tells whether writing to client `c` succeeds; the result records
the successful delivery, and a failed write has no effect at all. -/
def sendAll (clients : List Client) (ok : Client → Bool) (msg : Message) :
    List (Client × Message) :=
  clients.filterMap (fun c => if ok c then some (c, msg) else none)

/-- The inner loop of `producer_handler` (lines 136-140): `while
messages: message = messages.pop(); if message != None: for client in
get_clients(): send(client, message)`.  Returns the sequence of message
values written (in write order) and the successful (client, message)
deliveries (in write order).  The fuel is the number of remaining
iterations. -/
def prodLoopFuel : Nat → List (Option Message) → List Client → (Client → Bool) →
    List Message × List (Client × Message)
  | 0, _, _, _ => ([], [])
  | fuel + 1, messages, clients, ok =>
    match messages.getLast? with
    | none => ([], [])
    | some entry =>
      let rest := prodLoopFuel fuel messages.dropLast clients ok
      match entry with
      | none => rest
      | some msg => (msg :: rest.1, sendAll clients ok msg ++ rest.2)

/-- The observable outcome of one tick of `producer_handler`. -/
structure TickResult where
  writeOrder : List Message
  sends : List (Client × Message)
  regAfter : List Client
  queueAfter : List (Option Message)
deriving DecidableEq

/-- One tick of `producer_handler` (lines 133-140): drain the queue with
`get_updates`, then pop the drained list from the end, skipping `None`
entries and fanning each message out to every registered client, with
per-client write failures caught by `send`.  The loop never touches the
client registry. -/
def producerTick (q : List (Option Message)) (reg : List Client)
    (ok : Client → Bool) : TickResult :=
  let drained := get_updates q
  let res := prodLoopFuel drained.1.length drained.1 (get_clients reg) ok
  ⟨res.1, res.2, reg, drained.2⟩

/-- `http_get_trainer` (line 212): the Flask pull endpoint computes the
trainer dict with its game state and returns it bare via `jsonify`.  Its
body never references `websocket_handler`, so the hub state passes
through untouched. -/
def http_get_trainer (env : Env) (st : HState) : Except PyErr PyVal × HState :=
  (env.trainer_full, st)

/-- Modelled from the spec, for the refinement claim only: draining an
explicit FIFO buffer returns the queued messages in insertion order
(entries that hold no message are not messages and are not returned). -/
def fifoDrainSpec (q : List (Option Message)) : List Message :=
  q.filterMap id

/-- The deliveries produced by one drained queue entry: a `None` entry is
skipped by the `if message != None` guard, a message is fanned out by
`sendAll`.  Used to characterize the producer loop. -/
def fanEntry (clients : List Client) (ok : Client → Bool) :
    Option Message → List (Client × Message)
  | none => []
  | some msg => sendAll clients ok msg

/-- The handler state after a consumer step, whichever way it ended. -/
def stateOf : StepOutcome → HState
  | .replied _ st => st
  | .closed st => st

/-- A concrete environment in which every external provider succeeds. -/
def env0 : Env :=
  ⟨.ok (.ext 0), .ok (.ext 1), .ok (.ext 2), .ok (.ext 3), .ok (.ext 4),
   .ok (.ext 5), .ok (.ext 6), .ok (.ext 7), true, .ok (.ext 8), .ok (.ext 9)⟩

/-- A concrete environment in which the party provider raises. -/
def envBad : Env :=
  ⟨.ok (.ext 0), .ok (.ext 1), .ok (.ext 2), .error (.producerError 7),
   .ok (.ext 4), .ok (.ext 5), .ok (.ext 6), .ok (.ext 7), true,
   .ok (.ext 8), .ok (.ext 9)⟩

/-- The trainer frame produced under `env0`. -/
def trainerMsg : Message := prep_data (.ext 0) "trainer"

/-- The party frame produced under `env0`. -/
def partyMsg : Message := prep_data (.ext 3) "party"

/-! ## Characterization lemmas -/

theorem toNat_ofNat_of_valid {n : Nat} (h : n.isValidChar) :
    (Char.ofNat n).toNat = n := by
  rw [Char.ofNat, dif_pos h]; rfl

theorem pyLowerChar_idem (c : Char) :
    pyLowerChar (pyLowerChar c) = pyLowerChar c := by
  unfold pyLowerChar
  by_cases h : 65 ≤ c.toNat ∧ c.toNat ≤ 90
  · rw [if_pos h]
    have hv : (c.toNat + 32).isValidChar := Or.inl (by omega)
    rw [toNat_ofNat_of_valid hv, if_neg (by omega)]
  · rw [if_neg h, if_neg h]

theorem pyLower_idem (s : String) : pyLower (pyLower s) = pyLower s := by
  unfold pyLower
  refine congrArg String.mk ?_
  show (s.data.map pyLowerChar).map pyLowerChar = s.data.map pyLowerChar
  rw [List.map_map]
  exact List.map_congr_left (fun a _ => pyLowerChar_idem a)

theorem drainFuel_eq {α : Type} (fuel : Nat) (q acc : List α) (h : q.length ≤ fuel) :
    drainFuel fuel q acc = (acc ++ q.reverse, []) := by
  induction fuel generalizing q acc with
  | zero =>
    have hq : q = [] := List.length_eq_zero.mp (Nat.le_zero.mp h)
    subst hq; simp [drainFuel]
  | succ n ih =>
    rcases List.eq_nil_or_concat q with rfl | ⟨l, x, rfl⟩
    · simp [drainFuel]
    · simp only [List.concat_eq_append] at h ⊢
      rw [drainFuel]
      simp only [List.getLast?_concat, List.dropLast_concat]
      rw [ih l (acc ++ [x]) (by simp at h; omega)]
      simp

theorem get_updates_eq {α : Type} (q : List α) : get_updates q = (q.reverse, []) := by
  have := drainFuel_eq q.length q [] (Nat.le_refl _)
  simpa [get_updates] using this

theorem prodLoopFuel_eq (fuel : Nat) (msgs : List (Option Message)) (cs : List Client)
    (ok : Client → Bool) (h : msgs.length ≤ fuel) :
    prodLoopFuel fuel msgs cs ok =
      (msgs.reverse.filterMap id, msgs.reverse.flatMap (fanEntry cs ok)) := by
  induction fuel generalizing msgs with
  | zero =>
    have hq : msgs = [] := List.length_eq_zero.mp (Nat.le_zero.mp h)
    subst hq; simp [prodLoopFuel]
  | succ n ih =>
    rcases List.eq_nil_or_concat msgs with rfl | ⟨l, x, rfl⟩
    · simp [prodLoopFuel]
    · simp only [List.concat_eq_append] at h ⊢
      rw [prodLoopFuel]
      simp only [List.getLast?_concat, List.dropLast_concat]
      rw [ih l (by simp at h; omega)]
      cases x with
      | none => simp [fanEntry]
      | some msg => simp [fanEntry]

theorem producerTick_writeOrder (q : List (Option Message)) (reg : List Client)
    (ok : Client → Bool) : (producerTick q reg ok).writeOrder = q.filterMap id := by
  simp [producerTick, get_updates_eq, prodLoopFuel_eq]

theorem producerTick_sends (q : List (Option Message)) (reg : List Client)
    (ok : Client → Bool) :
    (producerTick q reg ok).sends = q.flatMap (fanEntry (get_clients reg) ok) := by
  simp [producerTick, get_updates_eq, prodLoopFuel_eq]

theorem producerTick_regAfter (q : List (Option Message)) (reg : List Client)
    (ok : Client → Bool) : (producerTick q reg ok).regAfter = reg := rfl

theorem producerTick_queueAfter (q : List (Option Message)) (reg : List Client)
    (ok : Client → Bool) : (producerTick q reg ok).queueAfter = [] := by
  simp [producerTick, get_updates_eq]

theorem except_map_some_map (x : Except PyErr Message) (q : List (Option Message)) :
    (x.map some).map (fun e => q ++ [e]) = x.map (fun m => q ++ [some m]) := by
  cases x <;> rfl

theorem add_update_eq (env : Env) (type : String) (q : List (Option Message)) :
    add_update env type q = (entryFor env type).map (fun e => q ++ [e]) := by
  unfold add_update entryFor
  split <;> first | rfl | rw [except_map_some_map]

/-! ## Claims -/

/-- Claim C1, counterexample: with registered clients 1, 2, 3 and client 2
failing on write, the broadcast tick delivers the drained message to
clients 1 and 3, but client 2 is still in the client registry after the
tick — the failing client is not removed by the broadcast path,
contradicting the claim that it is immediately unregistered. -/
theorem C1_counterexample :
    (producerTick [some trainerMsg] [1, 2, 3] (fun c => c != 2)).sends
        = [(1, trainerMsg), (3, trainerMsg)] ∧
    2 ∈ (producerTick [some trainerMsg] [1, 2, 3] (fun c => c != 2)).regAfter := by
  decide

/-- Claim C1, amended: for every connected push client and every broadcast
message, a write failure on some client is caught (the tick completes),
and delivery still completes to every registered client whose writes
succeed, for every drained message of the tick; however the broadcast
path does not remove the failing client — the registry is unchanged by
the tick, and removal happens only through the teardown of that clients
own read loop. -/
theorem C1_write_failure_isolated (q : List (Option Message)) (reg : List Client)
    (ok : Client → Bool) (c : Client) (m : Message)
    (hc : c ∈ reg) (hok : ok c = true) (hm : some m ∈ q) :
    (c, m) ∈ (producerTick q reg ok).sends ∧
    (producerTick q reg ok).regAfter = reg := by
  refine ⟨?_, producerTick_regAfter q reg ok⟩
  rw [producerTick_sends]
  refine List.mem_flatMap.mpr ⟨some m, hm, ?_⟩
  simp only [fanEntry, sendAll, get_clients]
  refine List.mem_filterMap.mpr ⟨c, hc, ?_⟩
  rw [if_pos hok]

/-- Claim C1, witness for the amended theorem at a concrete tick: three
clients, client 2 failing, two queued messages and one `None` entry. -/
theorem C1_write_failure_isolated_witness :
    (3 ∈ [1, 2, 3] ∧ (fun c : Client => c != 2) 3 = true ∧
      some partyMsg ∈ [some trainerMsg, none, some partyMsg]) ∧
    ((3, partyMsg) ∈ (producerTick [some trainerMsg, none, some partyMsg] [1, 2, 3]
        (fun c => c != 2)).sends ∧
      (producerTick [some trainerMsg, none, some partyMsg] [1, 2, 3]
        (fun c => c != 2)).regAfter = [1, 2, 3]) :=
  ⟨⟨by decide, by decide, by decide⟩,
   C1_write_failure_isolated _ _ _ 3 partyMsg (by decide) (by decide) (by decide)⟩

/-- Claim C2 (code bug): an unrecognized inbound command does not get the
intended reply of type "unknown".  The wildcard case of the read loop
evaluates `websocket_handler.prep_data`, an attribute the
`WebsocketHandler` class does not define, so the lookup raises
`AttributeError`; the blanket `except` swallows it and the `finally`
block unregisters the client, ending its read loop with no reply sent:
at the concrete input "foobar" the step closes the connection and the
client set becomes empty. -/
theorem C2_unknown_command_crashes_loop :
    "prep_data" ∉ websocketHandlerAttrs ∧
    dispatch env0 "foobar" = .error .attributeError ∧
    consumerStep env0 ⟨[], [1]⟩ 1 true "foobar" = .ok (.closed ⟨[], []⟩) := by
  decide

/-- Claim C3, counterexample: enqueuing "trainer" then "party" from the
empty queue and draining once returns the two messages in the reverse
order, not in FIFO order as claimed. -/
theorem C3_counterexample :
    add_update env0 "trainer" [] = .ok [some trainerMsg] ∧
    add_update env0 "party" [some trainerMsg] = .ok [some trainerMsg, some partyMsg] ∧
    (get_updates [some trainerMsg, some partyMsg]).1 = [some partyMsg, some trainerMsg] ∧
    (get_updates [some trainerMsg, some partyMsg]).1 ≠ [some trainerMsg, some partyMsg] := by
  decide

/-- Claim C3, amended: each successful `add_update` appends exactly one
entry at the tail of the queue, and a single `get_updates()` call
returns the queued entries in exactly the REVERSED order of enqueueing
(LIFO) and leaves the queue empty; FIFO delivery order is only restored
by the second pop loop of the broadcast tick. -/
theorem C3_lifo_drain (env : Env) (n : String) (q q' : List (Option Message))
    (h : add_update env n q = .ok q') :
    (∃ e, q' = q ++ [e]) ∧ get_updates q' = (q'.reverse, []) := by
  refine ⟨?_, get_updates_eq q'⟩
  rw [add_update_eq] at h
  cases he : entryFor env n with
  | error e => rw [he] at h; exact absurd h (by simp [Except.map])
  | ok e =>
    rw [he] at h
    simp [Except.map] at h
    exact ⟨e, h.symm⟩

/-- Claim C3, witness for the amended theorem at one concrete enqueue. -/
theorem C3_lifo_drain_witness :
    (∃ e, [some trainerMsg] = ([] : List (Option Message)) ++ [e]) ∧
    get_updates [some trainerMsg] = ([some trainerMsg].reverse, []) :=
  C3_lifo_drain env0 "trainer" [] [some trainerMsg] (by decide)

/-- Claim C4: for every drain cycle of the broadcast loop, the end-to-end
order in which drained messages are written to clients equals the order
in which they were enqueued — the composition of the pop loop of
`get_updates` with the second pop-from-end loop of the producer is
extensionally equal to draining an explicit FIFO buffer. -/
theorem C4_end_to_end_fifo (q : List (Option Message)) (reg : List Client)
    (ok : Client → Bool) :
    (producerTick q reg ok).writeOrder = fifoDrainSpec q := by
  rw [producerTick_writeOrder]; rfl

/-- Claim C5, counterexample: with a party provider that raises, the
enqueue `add_update("party")` propagates the raised error instead of
catching it and enqueueing a null-data message, and the read-loop
dispatch of "party" sends no reply at all — the connection is closed and
the client unregistered. -/
theorem C5_counterexample :
    add_update envBad "party" [] = .error (.producerError 7) ∧
    consumerStep envBad ⟨[], [1]⟩ 1 true "party" = .ok (.closed ⟨[], []⟩) := by
  decide

/-- Claim C5, amended: a producer that raises during an enqueue
propagates the exception out of `add_update` (nothing is enqueued and no
null-data message is substituted); a producer that raises during a
push-read-loop dispatch is swallowed by the blanket handler of that one
connection: no reply is sent and that client alone is removed from the
registry, leaving the update queue and the other clients unaffected. -/
theorem C5_producer_failure_propagates (env : Env) (e : PyErr) (n raw : String)
    (q : List (Option Message)) (st : HState) (c : Client)
    (h1 : entryFor env n = .error e) (hc : c ∈ st.clients)
    (h2 : dispatch env (pyLower raw) = .error e) :
    add_update env n q = .error e ∧
    consumerStep env st c true raw = .ok (.closed ⟨st.updates, st.clients.erase c⟩) := by
  constructor
  · rw [add_update_eq, h1]; rfl
  · unfold consumerStep
    rw [h2]
    unfold remove_client
    rw [if_pos hc]
    rfl

/-- Claim C5, witness for the amended theorem under the failing party
provider. -/
theorem C5_producer_failure_propagates_witness :
    (entryFor envBad "party" = .error (.producerError 7) ∧ 1 ∈ [1, 2] ∧
      dispatch envBad (pyLower "party") = .error (.producerError 7)) ∧
    (add_update envBad "party" [] = .error (.producerError 7) ∧
      consumerStep envBad ⟨[], [1, 2]⟩ 1 true "party"
        = .ok (.closed ⟨[], [1, 2].erase 1⟩)) :=
  ⟨⟨by decide, by decide, by decide⟩,
   C5_producer_failure_propagates envBad (.producerError 7) "party" "party" []
     ⟨[], [1, 2]⟩ 1 (by decide) (by decide) (by decide)⟩

/-- Claim C6, counterexample: removing a client from the empty registry
raises `KeyError` (Python `set.remove`), so `remove_client` on an absent
client is not an error-free no-op as claimed. -/
theorem C6_counterexample :
    remove_client ([] : List Client) 0 = .error .keyError := by decide

/-- Claim C6, amended: `remove_client(c)` when `c` is not in the client
set raises `KeyError` (it is not a no-op); after `add_client(c)`
followed by `remove_client(c)` the removal succeeds and the set returned
by `get_clients()` does not contain `c`. -/
theorem C6_remove_semantics (s : List Client) (c : Client) (h : c ∉ s) :
    remove_client s c = .error .keyError ∧
    remove_client (add_client s c) c = .ok ((add_client s c).erase c) ∧
    c ∉ get_clients ((add_client s c).erase c) := by
  have hadd : add_client s c = s ++ [c] := by simp [add_client, h]
  refine ⟨by simp [remove_client, h], ?_, ?_⟩
  · have hmem : c ∈ add_client s c := by rw [hadd]; simp
    simp [remove_client, hmem]
  · rw [hadd, List.erase_append_right _ (by simpa using h)]
    simp [get_clients, h]

/-- Claim C6, witness at a concrete registry. -/
theorem C6_remove_semantics_witness :
    ((3 : Client) ∉ [5]) ∧
    (remove_client [5] 3 = .error .keyError ∧
      remove_client (add_client [5] 3) 3 = .ok ((add_client [5] 3).erase 3) ∧
      (3 : Client) ∉ get_clients ((add_client [5] 3).erase 3)) :=
  ⟨by decide, C6_remove_semantics [5] 3 (by decide)⟩

/-- Claim C7, counterexample: for the unrecognized name "bogus",
`add_update` appends the bare entry `None` to the queue, not a typed
message whose data field is null — no message at all is appended. -/
theorem C7_counterexample :
    add_update env0 "bogus" [] = .ok [none] ∧
    ¬ ∃ m : Message, add_update env0 "bogus" [] = .ok [some m] := by
  refine ⟨by decide, ?_⟩
  rintro ⟨m, hm⟩
  rw [show add_update env0 "bogus" [] = .ok [none] from by decide] at hm
  simp at hm

/-- Claim C7, amended: for every name not in the recognized set,
`add_update(name)` still appends exactly one entry to the update queue —
the bare placeholder `None` rather than a message with data = null — so
unrecognized invalidations are enqueued, not silently dropped. -/
theorem C7_unrecognized_appends_none (env : Env) (n : String)
    (q : List (Option Message)) (h : n ∉ recognizedNames) :
    add_update env n q = .ok (q ++ [none]) := by
  unfold add_update
  split <;> simp_all [recognizedNames]

/-- Claim C7, witness for the amended theorem at the name "bogus". -/
theorem C7_unrecognized_appends_none_witness :
    ("bogus" ∉ recognizedNames) ∧
    add_update env0 "bogus" [] = .ok ([] ++ [none]) :=
  ⟨by decide, C7_unrecognized_appends_none env0 "bogus" [] (by decide)⟩

/-- Claim C8: command resolution is invariant under case — the read loop
lowercases the inbound message before matching, and lowercasing is
idempotent, so resolving `x` and resolving the lowercase of `x` take the
same branch; concretely, "PARTY", "party" and the alias "pa" all yield
a reply of the same type "party". -/
theorem C8_case_insensitive (env : Env) (st : HState) (c : Client) (d : PyVal)
    (h : env.party_data = .ok d) :
    (∀ x : String, consumerStep env st c true (pyLower x) = consumerStep env st c true x) ∧
    consumerStep env st c true "PARTY" = .ok (.replied (prep_data d "party") st) ∧
    consumerStep env st c true "party" = .ok (.replied (prep_data d "party") st) ∧
    consumerStep env st c true "pa" = .ok (.replied (prep_data d "party") st) := by
  have hd1 : dispatch env "party" = .ok (prep_data d "party") := by
    have hrfl : dispatch env "party" = get_party env := rfl
    rw [hrfl, get_party, h]; rfl
  have hd2 : dispatch env "pa" = .ok (prep_data d "party") := by
    have hrfl : dispatch env "pa" = get_party env := rfl
    rw [hrfl, get_party, h]; rfl
  refine ⟨fun x => ?_, ?_, ?_, ?_⟩
  · unfold consumerStep
    rw [pyLower_idem]
  · unfold consumerStep
    rw [show pyLower "PARTY" = "party" from by decide, hd1]
    rfl
  · unfold consumerStep
    rw [show pyLower "party" = "party" from by decide, hd1]
    rfl
  · unfold consumerStep
    rw [show pyLower "pa" = "pa" from by decide, hd2]
    rfl

/-- Claim C8, witness under the all-successful environment. -/
theorem C8_case_insensitive_witness :
    (env0.party_data = .ok (.ext 3)) ∧
    ((∀ x : String, consumerStep env0 ⟨[], [1]⟩ 1 true (pyLower x)
        = consumerStep env0 ⟨[], [1]⟩ 1 true x) ∧
      consumerStep env0 ⟨[], [1]⟩ 1 true "PARTY"
        = .ok (.replied (prep_data (.ext 3) "party") ⟨[], [1]⟩) ∧
      consumerStep env0 ⟨[], [1]⟩ 1 true "party"
        = .ok (.replied (prep_data (.ext 3) "party") ⟨[], [1]⟩) ∧
      consumerStep env0 ⟨[], [1]⟩ 1 true "pa"
        = .ok (.replied (prep_data (.ext 3) "party") ⟨[], [1]⟩)) :=
  ⟨by decide, C8_case_insensitive env0 ⟨[], [1]⟩ 1 (.ext 3) (by decide)⟩

/-- Claim C9: on-demand named lookups leave the Update Queue unchanged —
whatever a read-loop step does (reply or close), the updates list of the
resulting state equals the one before, and the pull trainer endpoint
passes the hub state through untouched. -/
theorem C9_lookups_leave_queue (env : Env) (st : HState) (c : Client) (sendOk : Bool)
    (raw : String) (out : StepOutcome)
    (h : consumerStep env st c sendOk raw = .ok out) :
    (stateOf out).updates = st.updates ∧ (http_get_trainer env st).2 = st := by
  refine ⟨?_, rfl⟩
  unfold consumerStep at h
  cases hd : dispatch env (pyLower raw) with
  | ok m =>
    rw [hd] at h
    cases sendOk with
    | true =>
      have h2 := Except.ok.inj h
      rw [← h2]
      rfl
    | false =>
      cases hr : remove_client st.clients c with
      | error e => rw [hr] at h; exact absurd h (by simp [Except.map])
      | ok s2 =>
        rw [hr] at h
        simp only [Except.map] at h
        have h2 := Except.ok.inj h
        rw [← h2]
        rfl
  | error e =>
    rw [hd] at h
    cases hr : remove_client st.clients c with
    | error e2 => rw [hr] at h; exact absurd h (by simp [Except.map])
    | ok s2 =>
      rw [hr] at h
      simp only [Except.map] at h
      have h2 := Except.ok.inj h
      rw [← h2]
      rfl

/-- Claim C9, witness at a concrete lookup with a non-empty queue. -/
theorem C9_lookups_leave_queue_witness :
    (consumerStep env0 ⟨[some trainerMsg], [1]⟩ 1 true "party"
        = .ok (.replied partyMsg ⟨[some trainerMsg], [1]⟩)) ∧
    ((stateOf (.replied partyMsg ⟨[some trainerMsg], [1]⟩)).updates = [some trainerMsg] ∧
      (http_get_trainer env0 ⟨[some trainerMsg], [1]⟩).2 = ⟨[some trainerMsg], [1]⟩) :=
  ⟨by decide,
   C9_lookups_leave_queue env0 ⟨[some trainerMsg], [1]⟩ 1 true "party" _ (by decide)⟩

/-- Claim C10: a drained queue entry that is `None` is never written to
any client — the deliveries of a tick are unchanged if the `None`
entries are removed from the queue beforehand, and every delivered
message corresponds to a non-`None` entry of the queue; in particular an
invalidation with an unrecognized name, which enqueues `None`, is never
delivered to any listener. -/
theorem C10_none_entries_not_delivered (q : List (Option Message)) (reg : List Client)
    (ok : Client → Bool) :
    (producerTick q reg ok).sends
        = (producerTick ((q.filterMap id).map some) reg ok).sends ∧
    ∀ p ∈ (producerTick q reg ok).sends, some p.2 ∈ q := by
  constructor
  · rw [producerTick_sends, producerTick_sends]
    induction q with
    | nil => rfl
    | cons e t iht =>
      cases e with
      | none => simpa [fanEntry] using iht
      | some m => simpa [fanEntry] using iht
  · intro p hp
    rw [producerTick_sends] at hp
    obtain ⟨e, he, hpe⟩ := List.mem_flatMap.mp hp
    cases e with
    | none => simp [fanEntry] at hpe
    | some m =>
      simp only [fanEntry, sendAll] at hpe
      obtain ⟨a, _, ha⟩ := List.mem_filterMap.mp hpe
      by_cases hoa : ok a = true
      · rw [if_pos hoa] at ha
        have := Option.some.inj ha
        rw [← this]
        exact he
      · rw [if_neg hoa] at ha
        exact absurd ha (by simp)

/-- Claim C10, witness at a queue holding a `None` entry. -/
theorem C10_none_entries_not_delivered_witness :
    ((1, trainerMsg) ∈ (producerTick [none, some trainerMsg] [1] (fun _ => true)).sends) ∧
    some ((1, trainerMsg) : Client × Message).2 ∈ [none, some trainerMsg] :=
  ⟨by decide,
   (C10_none_entries_not_delivered [none, some trainerMsg] [1] (fun _ => true)).2
     (1, trainerMsg) (by decide)⟩

end PokebotHub
